import Mathlib

/-!
Verification of the transport correlation/delivery engine and the permission
matcher of the magicbutton providers repository.

Strings coming from the JavaScript side (message types, correlation ids,
permission patterns, origins) are modelled as `List Char`; the JS string
operations used by the source (`includes`, `startsWith`, `endsWith`,
`slice(0,-1)`, `===`) become the corresponding list operations.
JS `Map` objects are modelled as insertion-ordered association lists with
unique keys (`mapSet` / `mapDelete` / `mapGet` mirror `Map.set` /
`Map.delete` / `Map.get`).
-/

abbrev Str := List Char

/-- JS `Map.set`: replace in place when the key exists, append otherwise. -/
def mapSet {κ α : Type} [DecidableEq κ] (m : List (κ × α)) (k : κ) (v : α) :
    List (κ × α) :=
  match m with
  | [] => [(k, v)]
  | (k', v') :: rest => if k' = k then (k, v) :: rest else (k', v') :: mapSet rest k v

/-- JS `Map.delete`: remove the entry with the given key (keys are unique, so
filtering is the same as removing the one entry). -/
def mapDelete {κ α : Type} [DecidableEq κ] (m : List (κ × α)) (k : κ) :
    List (κ × α) :=
  m.filter (fun p => if p.1 = k then false else true)

/-- JS `Map.get`. -/
def mapGet {κ α : Type} [DecidableEq κ] (m : List (κ × α)) (k : κ) : Option α :=
  match m with
  | [] => none
  | (k', v) :: rest => if k' = k then some v else mapGet rest k

theorem mapGet_mapSet {κ α : Type} [DecidableEq κ] (m : List (κ × α)) (k k' : κ)
    (v : α) : mapGet (mapSet m k v) k' = if k = k' then some v else mapGet m k' := by
  induction m with
  | nil => simp [mapSet, mapGet]
  | cons hd tl ih =>
    obtain ⟨a, b⟩ := hd
    by_cases hak : a = k <;> by_cases hk : a = k' <;> by_cases hkk : k = k' <;>
      simp_all [mapSet, mapGet]

theorem mapGet_mapDelete {κ α : Type} [DecidableEq κ] (m : List (κ × α)) (k k' : κ) :
    mapGet (mapDelete m k) k' = if k = k' then none else mapGet m k' := by
  induction m with
  | nil => simp [mapDelete, mapGet]
  | cons hd tl ih =>
    obtain ⟨a, b⟩ := hd
    by_cases hak : a = k <;> by_cases hk : a = k' <;> by_cases hkk : k = k' <;>
      simp_all [mapDelete, mapGet, List.filter_cons]

/-! ## Permission matcher
Embedding of `ExtensionAuthorizationProvider`
(packages/browser-extention-server/src/security/extension-authorization-provider.ts). -/

/-- `ComponentPermission` from the source.  The optional
`additionalPermissions` record is never read by `checkPermission` and is
omitted. -/
structure ComponentPermission where
  canHandle : List Str
  canSend : List Str
  canBroadcast : Bool
deriving DecidableEq

/-- The literal pattern `*`. -/
def star : Str := ['*']

/-- The two-character suffix `:*` tested by `pattern.endsWith(':*')`. -/
def colonStar : Str := [':', '*']

/-- `isMessageAllowed` (extension-authorization-provider.ts, lines 205-224):
a literal `*` in the list allows everything, then exact equality, then
patterns ending in `:*` match by the prefix obtained with `slice(0,-1)`. -/
def isMessageAllowed (messageType : Str) (allowedPatterns : List Str) : Bool :=
  if star ∈ allowedPatterns then true
  else if messageType ∈ allowedPatterns then true
  else allowedPatterns.any fun pattern =>
    if colonStar.isSuffixOf pattern then pattern.dropLast.isPrefixOf messageType
    else false

/-- Default permission table of the provider (lines 56-91 of the source). -/
def defaultPermissions : List (Str × ComponentPermission) :=
  [ ("background".toList,
      ⟨["*".toList], ["*".toList], true⟩),
    ("content".toList,
      ⟨["dom:*".toList, "page:*".toList, "content:*".toList],
       ["page:*".toList, "dom:*".toList, "settings:get".toList], false⟩),
    ("popup".toList,
      ⟨["ui:*".toList], ["settings:*".toList, "ui:*".toList], false⟩),
    ("sidepanel".toList,
      ⟨["ui:*".toList, "panel:*".toList],
       ["settings:*".toList, "panel:*".toList, "ui:*".toList], false⟩),
    ("options".toList,
      ⟨["settings:*".toList, "options:*".toList],
       ["settings:*".toList, "options:*".toList], false⟩) ]

/-- The provider's effective configuration after the constructor ran. -/
structure ExtAuthConfig where
  permissions : List (Str × ComponentPermission)
  allowUndefinedMessages : Bool
  enforceContentScriptOrigins : Bool
  contentScriptOriginPermissions : List (Str × ComponentPermission)

/-- Constructor of `ExtensionAuthorizationProvider` (lines 93-113).  Each
argument is `none` when the corresponding key is absent from the caller's
config object.  Note the source quirk: the merged permission map is
computed first, but the final `...config` spread puts the caller's raw
`permissions` object back on top whenever one was provided, so the merge
with the defaults only survives when no `permissions` key was given. -/
def mkExtAuthConfig (perms : Option (List (Str × ComponentPermission)))
    (allowUndef : Option Bool) (enforce : Option Bool)
    (originPerms : Option (List (Str × ComponentPermission))) : ExtAuthConfig :=
  let merged := match perms with
    | some ps => ps.foldl (fun acc kv => mapSet acc kv.1 kv.2) defaultPermissions
    | none => defaultPermissions
  { permissions := match perms with
      | some ps => ps
      | none => merged,
    allowUndefinedMessages := allowUndef.getD false,
    enforceContentScriptOrigins := enforce.getD true,
    contentScriptOriginPermissions := originPerms.getD [] }

/-- `MessageContext` as far as `checkPermission` reads it. -/
structure MessageContext where
  source : Option Str
  metaComponentType : Option Str
  userRoles : List Str

structure PermissionCheckResult where
  isAuthorized : Bool
  error : Option Str
deriving DecidableEq

/-- `context.meta?.componentType || (context.user?.roles?.length ?
context.user.roles[0] : 'unknown')` (lines 120-121); an empty string is
falsy in JS. -/
def contextComponentType (ctx : MessageContext) : Str :=
  let fallback := match ctx.userRoles with
    | [] => "unknown".toList
    | r :: _ => r
  match ctx.metaComponentType with
  | some s => if s = [] then fallback else s
  | none => fallback

/-- Matcher for the anchored regular expression the source builds from an
origin pattern by replacing every `*` with `.*` (line 143); `*` hence
matches any character sequence.  (The model lets `.` match every
character including a newline; origins in scope contain none.) -/
def globMatch : Str → Str → Bool
  | [], [] => true
  | [], _ :: _ => false
  | '*' :: ps, s =>
    globMatch ps s ||
      (match s with
       | [] => false
       | _ :: s' => globMatch ('*' :: ps) s')
  | _ :: _, [] => false
  | p :: ps, c :: s => p == c && globMatch ps s
termination_by p s => (p.length, s.length)

/-- One origin key test (lines 141-147): keys containing `*` are matched as
a regular expression, other keys by `context.source.startsWith(origin)`. -/
def originMatches (source : Str) (origin : Str) : Bool :=
  if origin.contains '*' then globMatch origin source
  else origin.isPrefixOf source

/-- `Object.keys(...).find(...)` over the origin-permission map, in
declaration order (lines 140-147). -/
def findMatchingOrigin (entries : List (Str × ComponentPermission)) (source : Str) :
    Option (Str × ComponentPermission) :=
  match entries with
  | [] => none
  | (o, p) :: rest =>
    if originMatches source o then some (o, p) else findMatchingOrigin rest source

/-- The role-based checks reached when the origin block does not return
(lines 176-198 of `checkPermission`). -/
def regularPermissionCheck (componentType : Str) (permissions : ComponentPermission)
    (messageType : Str) (isBroadcast : Bool) : PermissionCheckResult :=
  if isBroadcast && !permissions.canBroadcast then
    { isAuthorized := false,
      error := some ("Component type ".toList ++ componentType ++
        " is not allowed to broadcast messages".toList) }
  else
    let relevantPermissions :=
      if "request:".toList.isPrefixOf messageType then permissions.canHandle
      else permissions.canSend
    if !isMessageAllowed messageType relevantPermissions then
      { isAuthorized := false,
        error := some ("Component type ".toList ++ componentType ++
          (if "request:".toList.isPrefixOf messageType then
            " is not allowed to handle message type: ".toList
           else " is not allowed to send message type: ".toList) ++ messageType) }
    else { isAuthorized := true, error := none }

/-- `ExtensionAuthorizationProvider.checkPermission` (lines 118-199). -/
def checkPermission (cfg : ExtAuthConfig) (messageType : Str) (ctx : MessageContext)
    (isBroadcast : Bool) : PermissionCheckResult :=
  let componentType := contextComponentType ctx
  match mapGet cfg.permissions componentType with
  | none =>
    { isAuthorized := cfg.allowUndefinedMessages,
      error := some ("No permissions defined for component type: ".toList ++
        componentType) }
  | some permissions =>
    let sourceVal := match ctx.source with | some s => s | none => []
    let sourceTruthy : Bool := match ctx.source with | some s => s != [] | none => false
    if cfg.enforceContentScriptOrigins && componentType == "content".toList &&
        sourceTruthy && !cfg.contentScriptOriginPermissions.isEmpty then
      match findMatchingOrigin cfg.contentScriptOriginPermissions sourceVal with
      | some (_, originPermissions) =>
        if isBroadcast && !originPermissions.canBroadcast then
          { isAuthorized := false,
            error := some ("Origin ".toList ++ sourceVal ++
              " is not allowed to broadcast messages".toList) }
        else
          let relevantPermissions :=
            if isBroadcast then originPermissions.canSend
            else if "request:".toList.isPrefixOf messageType then
              originPermissions.canHandle
            else originPermissions.canSend
          if !isMessageAllowed messageType relevantPermissions then
            { isAuthorized := false,
              error := some ("Origin ".toList ++ sourceVal ++
                (if isBroadcast then " is not allowed to broadcast message type: ".toList
                 else " is not allowed to send message type: ".toList) ++ messageType) }
          else { isAuthorized := true, error := none }
      | none => regularPermissionCheck componentType permissions messageType isBroadcast
    else regularPermissionCheck componentType permissions messageType isBroadcast

/-- C6: the pattern check allows a message type exactly when the list holds a
literal `*`, or the exact type, or a pattern `<prefix>:*` such that the type
begins with `<prefix>:`; no other wildcard form matches and an unmatched type
is rejected.  In particular `["settings:*"]` admits `settings:get` and
`settings:update` but not `page:read`, and `["*"]` admits any type. -/
theorem c6_wildcard_pattern_characterization :
    (∀ (t : Str) (pats : List Str),
      isMessageAllowed t pats = true ↔
        star ∈ pats ∨ t ∈ pats ∨
          ∃ pre : Str, (pre ++ colonStar) ∈ pats ∧ (pre ++ [':']) <+: t) ∧
    isMessageAllowed "settings:get".toList ["settings:*".toList] = true ∧
    isMessageAllowed "settings:update".toList ["settings:*".toList] = true ∧
    isMessageAllowed "page:read".toList ["settings:*".toList] = false ∧
    isMessageAllowed "page:read".toList ["*".toList] = true := by
  refine ⟨?_, by decide, by decide, by decide, by decide⟩
  intro t pats
  have hdrop : ∀ pre : Str, (pre ++ colonStar).dropLast = pre ++ [':'] := by
    intro pre
    show (pre ++ [':', '*']).dropLast = pre ++ [':']
    rw [show pre ++ [':', '*'] = (pre ++ [':']) ++ ['*'] by simp]
    simp
  unfold isMessageAllowed
  by_cases hstar : star ∈ pats
  · simp [hstar]
  · by_cases hexact : t ∈ pats
    · simp [hstar, hexact]
    · rw [if_neg hstar, if_neg hexact, List.any_eq_true]
      constructor
      · rintro ⟨pattern, hmem, hp⟩
        by_cases hsuf : colonStar.isSuffixOf pattern
        · rw [if_pos hsuf] at hp
          rw [ List.isSuffixOf_iff_suffix] at hsuf
          obtain ⟨pre, rfl⟩ := hsuf
          refine Or.inr (Or.inr ⟨pre, hmem, ?_⟩)
          rw [hdrop pre] at hp
          rwa [ List.isPrefixOf_iff_prefix] at hp
        · rw [if_neg hsuf] at hp
          exact absurd hp (by simp)
      · rintro (h | h | ⟨pre, hmem, hpre⟩)
        · exact absurd h hstar
        · exact absurd h hexact
        · refine ⟨pre ++ colonStar, hmem, ?_⟩
          have hsuf : colonStar.isSuffixOf (pre ++ colonStar) := by
            rw [ List.isSuffixOf_iff_suffix]
            exact List.suffix_append pre colonStar
          rw [if_pos hsuf, hdrop pre, List.isPrefixOf_iff_prefix]
          exact hpre

/-- The provider of the C7 scenario: a `content` role configured with
`canSend = ["page:*", "settings:get"]`. -/
def c7Provider : ExtAuthConfig :=
  mkExtAuthConfig
    (some [("content".toList,
      ⟨[], ["page:*".toList, "settings:get".toList], false⟩)])
    none none none

/-- The C7 actor: a message context whose component type is `content`. -/
def c7Actor : MessageContext :=
  { source := none, metaComponentType := some "content".toList, userRoles := [] }

/-- C7: with `canSend = ["page:*", "settings:get"]`, a send check of
`settings:update` is denied and a send check of `page:read` is allowed. -/
theorem c7_content_send_scenario :
    (checkPermission c7Provider "settings:update".toList c7Actor false).isAuthorized
      = false ∧
    (checkPermission c7Provider "page:read".toList c7Actor false).isAuthorized
      = true := by
  exact ⟨by decide, by decide⟩

/-! ## ChromeExtensionTransport correlation engine
Embedding of `ChromeExtensionTransport`
(providers/browser-extention-server/src/chrome-extension-transport.ts).
Payloads are opaque to the engine and modelled as `Nat`. -/

inductive CompType
  | background
  | content
  | popup
  | sidepanel
  | options
deriving DecidableEq

/-- The `TransportMessage` shape as far as the transport inspects it. -/
structure TransportMessage where
  id : String
  type : String
  payload : Nat
  correlationId : Option String
  error : Option String
deriving DecidableEq

/-- A wrapped wire message: `{ namespace, data }` (`namespace` is a Lean
keyword, hence the field name `nspace`); `nspace = none` models an absent
field. -/
structure RawMessage where
  nspace : Option String
  data : TransportMessage
deriving DecidableEq

/-- One entry of the `responseHandlers` map.  `resolve`/`reject` become
effects tagged with the correlation id; the entry keeps the request type the
timeout closure captured. -/
structure PendingEntry where
  reqType : String
deriving DecidableEq

/-- Observable effects of a transport step: settling a caller's promise,
timer manipulation, channel writes and handler dispatch. -/
inductive TErr
  | fromPayload (e : String)
  | errorMessage (msg : String)
deriving DecidableEq

inductive Dest
  | runtime
  | tab (id : Nat)
deriving DecidableEq

inductive Eff
  | resolveEffect (cid : String) (payload : Nat)
  | rejectEffect (cid : String) (err : TErr)
  | clearTimeoutEffect (cid : String)
  | setTimeoutEffect (cid : String) (ms : Nat)
  | chromeSendEffect (dest : Dest)
  | invokeHandlerEffect (msgType : String) (payload : Nat)
  | removeListenerEffect
deriving DecidableEq

/-- Instance state of the transport: the two maps plus the configuration
fields the modelled methods read. -/
structure ExtState where
  responseHandlers : List (String × PendingEntry)
  messageHandlers : List (String × Nat)
  nspace : String
  handleResponses : Bool
  componentType : CompType
  targetTabId : Option Nat
deriving DecidableEq

namespace ChromeExtensionTransport

/-- `MESSAGE_TIMEOUT` (line 25). -/
def MESSAGE_TIMEOUT : Nat := 30000

/-- State after the constructor: both maps start empty
(`handleResponses` is `config.handleResponses !== false`). -/
def initialState (ns : String) (hr : Bool) (ct : CompType) (tt : Option Nat) :
    ExtState :=
  { responseHandlers := [], messageHandlers := [], nspace := ns,
    handleResponses := hr, componentType := ct, targetTabId := tt }

/-- The non-response path of `handleIncomingMessage` (lines 83-136): a
registered handler is scheduled asynchronously (its later `sendResponse`
answers the sender and never touches this instance's tables); the listener
returns `handleResponses` when a handler exists, `false` otherwise. -/
def dispatchToHandler (st : ExtState) (tm : TransportMessage) :
    Bool × ExtState × List Eff :=
  match mapGet st.messageHandlers tm.type with
  | some _ => (st.handleResponses, st, [Eff.invokeHandlerEffect tm.type tm.payload])
  | none => (false, st, [])

/-- `handleIncomingMessage` (lines 59-81 plus the handler dispatch):
messages with a missing, empty or foreign namespace are ignored; a
`response` with a truthy correlation id settles the matching pending entry
(clearing its timer and removing it first) and is dropped silently when no
entry matches. -/
def handleIncomingMessage (st : ExtState) (message : Option RawMessage) :
    Bool × ExtState × List Eff :=
  match message with
  | none => (false, st, [])
  | some m =>
    match m.nspace with
    | none => (false, st, [])
    | some ns =>
      if ns = "" ∨ ns ≠ st.nspace then (false, st, [])
      else
        let tm := m.data
        match tm.correlationId with
        | some cid =>
          if tm.type = "response" ∧ cid ≠ "" then
            match mapGet st.responseHandlers cid with
            | some _ =>
              (false,
               { st with responseHandlers := mapDelete st.responseHandlers cid },
               Eff.clearTimeoutEffect cid ::
                 match tm.error with
                 | some e => [Eff.rejectEffect cid (TErr.fromPayload e)]
                 | none => [Eff.resolveEffect cid tm.payload])
            | none => (false, st, [])
          else dispatchToHandler st tm
        | none => dispatchToHandler st tm

/-- `sendToTab` (lines 174-211): store the pending entry keyed by
`message.data.id`, schedule the 30 s timeout, write to the tab. -/
def sendToTab (st : ExtState) (tabId : Nat) (cid ty : String) :
    ExtState × List Eff :=
  ({ st with responseHandlers := mapSet st.responseHandlers cid ⟨ty⟩ },
   [Eff.setTimeoutEffect cid MESSAGE_TIMEOUT, Eff.chromeSendEffect (Dest.tab tabId)])

/-- `sendViaRuntime` (lines 216-253): same as `sendToTab` but writing via
runtime messaging. -/
def sendViaRuntime (st : ExtState) (cid ty : String) : ExtState × List Eff :=
  ({ st with responseHandlers := mapSet st.responseHandlers cid ⟨ty⟩ },
   [Eff.setTimeoutEffect cid MESSAGE_TIMEOUT, Eff.chromeSendEffect Dest.runtime])

/-- JS truthiness of an optional numeric tab id (`0` is falsy). -/
def truthyNat : Option Nat → Bool
  | some n => n != 0
  | none => false

/-- `send` (lines 142-169): a content script with a truthy `targetTabId`
sends to that tab, a background script sends to the context's tab when one
is given, everything else goes via runtime messaging.  There is no
connection check. -/
def send (st : ExtState) (message : TransportMessage) (ctxTabId : Option Nat) :
    ExtState × List Eff :=
  if st.componentType = CompType.content ∧ truthyNat st.targetTabId then
    sendToTab st (st.targetTabId.getD 0) message.id message.type
  else if st.componentType = CompType.background ∧ truthyNat ctxTabId then
    sendToTab st (ctxTabId.getD 0) message.id message.type
  else sendViaRuntime st message.id message.type

/-- The timeout callback registered by `sendToTab`/`sendViaRuntime`
(lines 179-182, 221-224): delete the entry and reject with an error naming
the request type.  Every path that removes a pending entry also clears its
timer, so a timer can only fire while its entry is still present; firing
after the timer was cleared is a no-op. -/
def timerFire (st : ExtState) (cid : String) : ExtState × List Eff :=
  match mapGet st.responseHandlers cid with
  | some entry =>
    ({ st with responseHandlers := mapDelete st.responseHandlers cid },
     [Eff.rejectEffect cid (TErr.errorMessage ("Message timeout: " ++ entry.reqType))])
  | none => (st, [])

/-- Outcome seen by the `chrome.*.sendMessage` completion callback. -/
inductive CallbackResult
  | lastError (msg : String)
  | response (error : Option String) (payload : Nat)
  | noResponse
deriving DecidableEq

/-- The send completion callback (lines 188-209, 230-251).  It captures
`resolve`/`reject` and the correlation id in its closure and settles without
consulting the pending table; `noResponse` means an undefined immediate
response, i.e. wait for the async path. -/
def sendCallback (st : ExtState) (cid : String) (r : CallbackResult) :
    ExtState × List Eff :=
  match r with
  | CallbackResult.lastError msg =>
    ({ st with responseHandlers := mapDelete st.responseHandlers cid },
     [Eff.clearTimeoutEffect cid,
      Eff.rejectEffect cid (TErr.errorMessage
        (if msg = "" then "Failed to send message" else msg))])
  | CallbackResult.response err payload =>
    ({ st with responseHandlers := mapDelete st.responseHandlers cid },
     Eff.clearTimeoutEffect cid ::
       match err with
       | some e => [Eff.rejectEffect cid (TErr.fromPayload e)]
       | none => [Eff.resolveEffect cid payload])
  | CallbackResult.noResponse => (st, [])

/-- `close` (lines 317-328): clear every pending timeout in map iteration
order, empty the table, remove the runtime listener. -/
def close (st : ExtState) : ExtState × List Eff :=
  ({ st with responseHandlers := [] },
   st.responseHandlers.map (fun p => Eff.clearTimeoutEffect p.1) ++
     [Eff.removeListenerEffect])

/-- Events a single transport instance can experience on the JS task queue. -/
inductive Event
  | sendReq (cid ty : String)
  | timer (cid : String)
  | inbound (message : Option RawMessage)
  | callback (cid : String) (r : CallbackResult)
  | closeEvt
deriving DecidableEq

def step (st : ExtState) (e : Event) : ExtState × List Eff :=
  match e with
  | Event.sendReq cid ty => sendViaRuntime st cid ty
  | Event.timer cid => timerFire st cid
  | Event.inbound m => (handleIncomingMessage st m).2
  | Event.callback cid r => sendCallback st cid r
  | Event.closeEvt => close st

end ChromeExtensionTransport

/-! ## Settlement counting for the pending-request table -/

namespace ChromeExtensionTransport

/-- Does this effect settle (resolve or reject) the given request? -/
def isSettleFor (cid : String) : Eff → Bool
  | Eff.resolveEffect c _ => c == cid
  | Eff.rejectEffect c _ => c == cid
  | _ => false

def settleCount (cid : String) (effs : List Eff) : Nat :=
  (effs.filter (isSettleFor cid)).length

/-- The completion paths that operate through the `responseHandlers` table:
a matched inbound response and a timeout expiry. -/
def isTableEvent : Event → Bool
  | Event.timer _ => true
  | Event.inbound _ => true
  | _ => false

/-- Settlements of `cid` emitted by table-mediated steps along a trace. -/
def tableSettles (cid : String) : ExtState → List Event → Nat
  | _, [] => 0
  | st, e :: es =>
    (if isTableEvent e then settleCount cid (step st e).2 else 0) +
      tableSettles cid (step st e).1 es

/-- All settlements of `cid` along a trace, whatever the path. -/
def totalSettles (cid : String) : ExtState → List Event → Nat
  | _, [] => 0
  | st, e :: es => settleCount cid (step st e).2 + totalSettles cid (step st e).1 es

/-- Number of sends that register a pending entry for `cid` in a trace. -/
def sendCount (cid : String) : List Event → Nat
  | [] => 0
  | Event.sendReq c _ :: es => (if c = cid then 1 else 0) + sendCount cid es
  | _ :: es => sendCount cid es

/-- 1 when a pending entry for `cid` is registered, 0 otherwise. -/
def memCount (cid : String) (st : ExtState) : Nat :=
  match mapGet st.responseHandlers cid with
  | some _ => 1
  | none => 0

/-- Pending entries registered by one event for `cid`: only a send does. -/
def sendInc (cid : String) : Event → Nat
  | Event.sendReq c _ => if c = cid then 1 else 0
  | _ => 0

theorem step_settles_le (st : ExtState) (e : Event) (cid : String) :
    (if isTableEvent e then settleCount cid (step st e).2 else 0) +
      memCount cid (step st e).1 ≤ memCount cid st + sendInc cid e := by
  cases e with
  | sendReq c ty =>
    simp only [step, sendViaRuntime, isTableEvent, sendInc, memCount,
      mapGet_mapSet, Bool.false_eq_true, if_false]
    by_cases h : c = cid
    · simp only [if_pos h]
      cases hm : mapGet st.responseHandlers cid <;> omega
    · simp only [if_neg h]
      cases hm : mapGet st.responseHandlers cid <;> omega
  | timer c =>
    simp only [step, timerFire, isTableEvent, sendInc]
    cases hm : mapGet st.responseHandlers c with
    | none => simp [memCount, settleCount]
    | some entry =>
      by_cases h : c = cid
      · subst h
        simp [memCount, hm, settleCount, isSettleFor, mapGet_mapDelete,
          List.filter_cons]
      · simp only [memCount, mapGet_mapDelete, if_neg h, settleCount,
          List.filter_cons]
        have : isSettleFor cid
            (Eff.rejectEffect c (TErr.errorMessage
              ("Message timeout: " ++ entry.reqType))) = false := by
          simp [isSettleFor, h]
        simp [this]
  | callback c r =>
    simp only [step, isTableEvent, sendInc, Bool.false_eq_true, if_false]
    cases r with
    | lastError msg =>
      simp only [sendCallback, memCount, mapGet_mapDelete]
      by_cases h : c = cid <;> simp [h]
    | response err payload =>
      simp only [sendCallback, memCount, mapGet_mapDelete]
      by_cases h : c = cid <;> simp [h]
    | noResponse => simp [sendCallback, memCount]
  | closeEvt =>
    simp [step, close, isTableEvent, sendInc, memCount, mapGet]
  | inbound m =>
    simp only [step, isTableEvent, if_pos, sendInc, Nat.add_zero]
    match m with
    | none => simp [handleIncomingMessage, settleCount, memCount]
    | some mm =>
      match hns : mm.nspace with
      | none => simp [handleIncomingMessage, hns, settleCount, memCount]
      | some ns =>
        simp only [handleIncomingMessage, hns]
        by_cases hg : ns = "" ∨ ns ≠ st.nspace
        · simp [hg, settleCount, memCount]
        · simp only [if_neg hg]
          match hcor : mm.data.correlationId with
          | none =>
            simp only [dispatchToHandler]
            cases mapGet st.messageHandlers mm.data.type <;>
              simp [settleCount, memCount, isSettleFor, List.filter_cons]
          | some c =>
            by_cases hresp : mm.data.type = "response" ∧ c ≠ ""
            · simp only [if_pos hresp]
              cases hm : mapGet st.responseHandlers c with
              | none => simp [settleCount, memCount]
              | some entry =>
                by_cases h : c = cid
                · subst h
                  cases herr : mm.data.error <;>
                    simp [memCount, hm, settleCount, isSettleFor,
                      mapGet_mapDelete, List.filter_cons]
                · cases herr : mm.data.error <;>
                    simp [memCount, mapGet_mapDelete, if_neg h, settleCount,
                      isSettleFor, h, List.filter_cons]
            · simp only [if_neg hresp, dispatchToHandler]
              cases mapGet st.messageHandlers mm.data.type <;>
                simp [settleCount, memCount, isSettleFor, List.filter_cons]

theorem tableSettles_le (cid : String) (es : List Event) :
    ∀ st : ExtState, tableSettles cid st es ≤ sendCount cid es + memCount cid st := by
  induction es with
  | nil => intro st; simp [tableSettles, sendCount]
  | cons e es ih =>
    intro st
    have hstep := step_settles_le st e cid
    have hih := ih (step st e).1
    have hcons : sendCount cid (e :: es) = sendInc cid e + sendCount cid es := by
      cases e <;> simp [sendCount, sendInc]
    simp only [tableSettles, hcons]
    omega

end ChromeExtensionTransport

/-! ## Claims about the correlation engine -/

/-- Settlement effects emitted over a list of pure clear-timeout effects. -/
theorem settleCount_clears (cid : String) (l : List (String × PendingEntry)) :
    ChromeExtensionTransport.settleCount cid
      (l.map (fun p => Eff.clearTimeoutEffect p.1) ++ [Eff.removeListenerEffect]) = 0 := by
  induction l with
  | nil => rfl
  | cons hd tl ih =>
    simpa [ChromeExtensionTransport.settleCount, List.filter_cons,
      ChromeExtensionTransport.isSettleFor]
      using ih

/-- C1 (amended): `close()` with outstanding requests clears one pending
timeout per table entry, in iteration order, and empties the
`responseHandlers` table — but it delivers no rejection at all: no pending
request fails with `ConnectionClosed`; their promises are simply left
unsettled. -/
theorem c1_close_clears_without_rejecting (st : ExtState) (cid : String) :
    (ChromeExtensionTransport.close st).1.responseHandlers = [] ∧
    ChromeExtensionTransport.settleCount cid (ChromeExtensionTransport.close st).2 = 0 ∧
    (ChromeExtensionTransport.close st).2.countP
      (fun e => match e with | Eff.clearTimeoutEffect _ => true | _ => false) =
      st.responseHandlers.length := by
  refine ⟨rfl, settleCount_clears cid st.responseHandlers, ?_⟩
  simp [ChromeExtensionTransport.close, List.countP_append, List.countP_map,
    List.countP_eq_length, Function.comp]

/-- Transport state with a single outstanding request `r1`. -/
def c1State : ExtState :=
  { responseHandlers := [("r1", ⟨"ping"⟩)], messageHandlers := [],
    nspace := "magicbutton", handleResponses := true,
    componentType := CompType.background, targetTabId := none }

/-- C1 (counterexample): with one outstanding request, `close` empties the
table but delivers zero resolve/reject effects — the request is not rejected
with `ConnectionClosed` as claimed. -/
theorem c1_counterexample :
    c1State.responseHandlers.length = 1 ∧
    ChromeExtensionTransport.settleCount "r1" (ChromeExtensionTransport.close c1State).2 = 0 ∧
    (ChromeExtensionTransport.close c1State).1.responseHandlers = [] := by
  refine ⟨rfl, rfl, rfl⟩

/-- C2: when the 30000 ms timer of a pending request fires, the caller is
rejected with a timeout error naming the request type, the entry leaves the
`responseHandlers` table, and a response carrying that correlation id
arriving afterwards is ignored: the inbound handler returns `false`, changes
no state and settles nothing. -/
theorem c2_timeout_rejects_and_late_response_ignored
    (st : ExtState) (cid ty mid : String) (pl : Nat) (err : Option String)
    (hcid : cid ≠ "")
    (hent : mapGet st.responseHandlers cid = some ⟨ty⟩) :
    ChromeExtensionTransport.MESSAGE_TIMEOUT = 30000 ∧
    (ChromeExtensionTransport.timerFire st cid).2 =
      [Eff.rejectEffect cid (TErr.errorMessage ("Message timeout: " ++ ty))] ∧
    mapGet (ChromeExtensionTransport.timerFire st cid).1.responseHandlers cid = none ∧
    ChromeExtensionTransport.handleIncomingMessage
        (ChromeExtensionTransport.timerFire st cid).1
        (some ⟨some st.nspace, ⟨mid, "response", pl, some cid, err⟩⟩) =
      (false, (ChromeExtensionTransport.timerFire st cid).1, []) := by
  have hstep : ChromeExtensionTransport.timerFire st cid =
      ({ st with responseHandlers := mapDelete st.responseHandlers cid },
       [Eff.rejectEffect cid (TErr.errorMessage ("Message timeout: " ++ ty))]) := by
    simp [ChromeExtensionTransport.timerFire, hent]
  refine ⟨rfl, by rw [hstep], ?_, ?_⟩
  · rw [hstep]; simp [mapGet_mapDelete]
  · rw [hstep]
    by_cases hns : st.nspace = ""
    · simp [ChromeExtensionTransport.handleIncomingMessage, hns]
    · simp [ChromeExtensionTransport.handleIncomingMessage, hns, hcid,
        mapGet_mapDelete]

/-- Transport state used to instantiate C2 at a concrete input. -/
def c2State : ExtState :=
  { responseHandlers := [("r1", ⟨"ping"⟩)], messageHandlers := [],
    nspace := "magicbutton", handleResponses := true,
    componentType := CompType.background, targetTabId := none }

/-- Witness for C2 at a concrete state and correlation id. -/
theorem c2_witness :
    (("r1" : String) ≠ "" ∧
      mapGet c2State.responseHandlers "r1" = some ⟨"ping"⟩) ∧
    (ChromeExtensionTransport.MESSAGE_TIMEOUT = 30000 ∧
      (ChromeExtensionTransport.timerFire c2State "r1").2 =
        [Eff.rejectEffect "r1" (TErr.errorMessage ("Message timeout: " ++ "ping"))] ∧
      mapGet (ChromeExtensionTransport.timerFire c2State "r1").1.responseHandlers "r1" = none ∧
      ChromeExtensionTransport.handleIncomingMessage
          (ChromeExtensionTransport.timerFire c2State "r1").1
          (some ⟨some c2State.nspace, ⟨"m9", "response", 5, some "r1", none⟩⟩) =
        (false, (ChromeExtensionTransport.timerFire c2State "r1").1, [])) :=
  ⟨⟨by decide, by decide⟩,
   c2_timeout_rejects_and_late_response_ignored c2State "r1" "ping" "m9" 5 none
     (by decide) (by decide)⟩

/-- C3 (amended): completion paths that operate through the
`responseHandlers` table — a matched inbound response and a timeout expiry —
settle each pending request at most once in total, because each removes the
entry (and clears the timer) before settling.  The claimed exactly-once
property fails on the other paths: a request still outstanding at `close()`
is never settled, and the direct send callback settles without consulting
the table (see the counterexample). -/
theorem c3_table_paths_settle_at_most_once
    (ns : String) (hr : Bool) (ct : CompType) (tt : Option Nat)
    (es : List ChromeExtensionTransport.Event) (cid : String)
    (h : ChromeExtensionTransport.sendCount cid es ≤ 1) :
    ChromeExtensionTransport.tableSettles cid
      (ChromeExtensionTransport.initialState ns hr ct tt) es ≤ 1 := by
  have hle := ChromeExtensionTransport.tableSettles_le cid es
    (ChromeExtensionTransport.initialState ns hr ct tt)
  have hmem : ChromeExtensionTransport.memCount cid
      (ChromeExtensionTransport.initialState ns hr ct tt) = 0 := rfl
  omega

/-- Witness for C3's amended theorem on a send-then-timeout trace. -/
theorem c3_witness :
    ChromeExtensionTransport.sendCount "r1"
      [ChromeExtensionTransport.Event.sendReq "r1" "ping",
       ChromeExtensionTransport.Event.timer "r1"] ≤ 1 ∧
    ChromeExtensionTransport.tableSettles "r1"
      (ChromeExtensionTransport.initialState "magicbutton" true CompType.background none)
      [ChromeExtensionTransport.Event.sendReq "r1" "ping",
       ChromeExtensionTransport.Event.timer "r1"] ≤ 1 :=
  ⟨by decide,
   c3_table_paths_settle_at_most_once "magicbutton" true CompType.background none
     [ChromeExtensionTransport.Event.sendReq "r1" "ping",
      ChromeExtensionTransport.Event.timer "r1"] "r1" (by decide)⟩

/-- A trace on which the exactly-once claim fails twice over: request `r1`
times out (one reject) and the late send callback then resolves it a second
time; request `r2` is outstanding when the transport closes and is never
settled. -/
def c3Trace : List ChromeExtensionTransport.Event :=
  [ChromeExtensionTransport.Event.sendReq "r1" "ping",
   ChromeExtensionTransport.Event.timer "r1",
   ChromeExtensionTransport.Event.callback "r1"
     (ChromeExtensionTransport.CallbackResult.response none 7),
   ChromeExtensionTransport.Event.sendReq "r2" "pong",
   ChromeExtensionTransport.Event.closeEvt]

/-- C3 (counterexample): on `c3Trace` the resolve/reject pair of `r1` is
invoked twice (reject by the timeout, then resolve by the late callback) and
that of `r2` zero times (outstanding at close) — not exactly once. -/
theorem c3_counterexample :
    ChromeExtensionTransport.totalSettles "r1"
      (ChromeExtensionTransport.initialState "magicbutton" true CompType.background none)
      c3Trace = 2 ∧
    ChromeExtensionTransport.totalSettles "r2"
      (ChromeExtensionTransport.initialState "magicbutton" true CompType.background none)
      c3Trace = 0 := by
  exact ⟨by decide, by decide⟩

/-- C10: an inbound raw message whose `namespace` field is absent, empty or
different from the transport's configured namespace is inert: the listener
returns `false`, no message or response handler is invoked (no effects), and
the state — in particular both handler tables — is unchanged. -/
theorem c10_namespace_mismatch_is_inert (st : ExtState) (m : RawMessage)
    (h : ∀ s, m.nspace = some s → s = "" ∨ s ≠ st.nspace) :
    ChromeExtensionTransport.handleIncomingMessage st (some m) = (false, st, []) := by
  cases hm : m.nspace with
  | none => simp [ChromeExtensionTransport.handleIncomingMessage, hm]
  | some s =>
    have hs := h s hm
    simp [ChromeExtensionTransport.handleIncomingMessage, hm, hs]

/-- Transport state used to instantiate C10 at a concrete input. -/
def c10State : ExtState :=
  { responseHandlers := [("r7", ⟨"ping"⟩)], messageHandlers := [("ping", 1)],
    nspace := "magicbutton", handleResponses := true,
    componentType := CompType.content, targetTabId := none }

/-- Witness for C10: a message carrying a foreign namespace is ignored. -/
theorem c10_witness :
    (∀ s, (RawMessage.mk (some "other") ⟨"m1", "ping", 3, none, none⟩).nspace = some s →
      s = "" ∨ s ≠ c10State.nspace) ∧
    ChromeExtensionTransport.handleIncomingMessage c10State
      (some (RawMessage.mk (some "other") ⟨"m1", "ping", 3, none, none⟩)) =
      (false, c10State, []) :=
  ⟨fun s hs => by
      injection hs with h2
      subst h2
      right
      decide,
   c10_namespace_mismatch_is_inert c10State _
     (fun s hs => by
       injection hs with h2
       subst h2
       right
       decide)⟩

/-! ## ChromeTransport reconnection controller
Embedding of `ChromeTransport` (packages/chrome, transport/chrome-transport.ts,
provided here as src/unnamed/part_003). -/

structure ReconnectOptions where
  maxRetries : Nat
  backoffFactor : Nat
  initialDelayMs : Nat
deriving DecidableEq

/-- Fields of a `ChromeTransport` instance the modelled methods read:
`port` is `port !== null`, `connectPromise` names the stored promise
object (`none` = null). -/
structure CTState where
  isConnected : Bool
  port : Bool
  connectPromise : Option Nat
  reconnectAttempts : Nat
deriving DecidableEq

/-- Channel writes of the two gated transports. -/
inductive ChEff
  | portPost
  | natsPublish (subject : Str)
deriving DecidableEq

namespace ChromeTransport

/-- `handleReconnect` (lines 414-433): below `maxRetries` increment the
counter and schedule `connect()` after
`initialDelayMs * backoffFactor^(reconnectAttempts - 1)` ms (the returned
delay); at or above `maxRetries` only log, scheduling nothing.  The source
computes the delay on JS doubles via `Math.pow`; the model uses `Nat`,
which is exact for the integer configurations in scope. -/
def handleReconnect (opts : ReconnectOptions) (st : CTState) : CTState × Option Nat :=
  if st.reconnectAttempts < opts.maxRetries then
    ({ st with reconnectAttempts := st.reconnectAttempts + 1 },
     some (opts.initialDelayMs * opts.backoffFactor ^ st.reconnectAttempts))
  else (st, none)

/-- State after `k` consecutive invocations of `handleReconnect`. -/
def runReconnects (opts : ReconnectOptions) (st : CTState) : Nat → CTState
  | 0 => st
  | n + 1 => (handleReconnect opts (runReconnects opts st n)).1

/-- Delay scheduled by the `n`-th (1-indexed) invocation of
`handleReconnect`, i.e. after the `n`-th consecutive failed attempt. -/
def nthRetryDelay (opts : ReconnectOptions) (st : CTState) (n : Nat) : Option Nat :=
  (handleReconnect opts (runReconnects opts st (n - 1))).2

theorem runReconnects_attempts (opts : ReconnectOptions) (st : CTState) (k : Nat)
    (h : st.reconnectAttempts = 0) :
    (runReconnects opts st k).reconnectAttempts = min k opts.maxRetries := by
  induction k with
  | zero => simp [runReconnects, h]
  | succ k ih =>
    simp only [runReconnects, handleReconnect]
    split <;> simp_all <;> omega

/-- `handleDisconnection` (lines 401-409): drop the connection flags and,
when the transport was connected and reconnection is enabled, run the
reconnect logic. -/
def handleDisconnection (opts : ReconnectOptions) (reconnectEnabled : Bool)
    (st : CTState) : CTState × Option Nat :=
  let wasConnected := st.isConnected
  let st' : CTState := { st with isConnected := false, port := false }
  if wasConnected && reconnectEnabled then handleReconnect opts st'
  else (st', none)

/-- Outcome of one `connect()` call. -/
inductive CTConnectResult
  | alreadyConnected
  | existingPromise (p : Nat)
  | attemptResolved (p : Nat)
  | attemptRejected (p : Nat)
deriving DecidableEq

/-- `connect` (lines 148-213).  `chrome.runtime.connect` is synchronous, so
the promise executor runs to completion inside the call; `fresh` names the
promise object this call creates and `connectThrows` says whether opening
the port throws.  The trailing `this.connectPromise = promise` assignment
runs after the executor, so the stored promise ends up set even though the
executor already called `cleanupConnectionPromise`. -/
def connect (opts : ReconnectOptions) (reconnectEnabled : Bool) (st : CTState)
    (fresh : Nat) (connectThrows : Bool) : CTConnectResult × CTState :=
  if st.isConnected ∧ st.port then (CTConnectResult.alreadyConnected, st)
  else
    match st.connectPromise with
    | some p => (CTConnectResult.existingPromise p, st)
    | none =>
      if connectThrows then
        let st' : CTState := { st with connectPromise := some fresh }
        let st'' := if reconnectEnabled then (handleReconnect opts st').1 else st'
        (CTConnectResult.attemptRejected fresh, st'')
      else
        (CTConnectResult.attemptResolved fresh,
         { st with isConnected := true, port := true, reconnectAttempts := 0,
                   connectPromise := some fresh })

/-- `send` (lines 298-310): with no port or `isConnected` false it throws
`Transport not connected` without touching the port; otherwise it posts the
message, and a `postMessage` failure runs `handleDisconnection` and
rethrows. -/
def send (opts : ReconnectOptions) (reconnectEnabled : Bool) (st : CTState)
    (postThrows : Bool) : Except String Unit × List ChEff × CTState :=
  if !st.port || !st.isConnected then
    (Except.error "Transport not connected", [], st)
  else if postThrows then
    (Except.error "postMessage error", [ChEff.portPost],
     (handleDisconnection opts reconnectEnabled st).1)
  else (Except.ok (), [ChEff.portPost], st)

end ChromeTransport

/-! ## NatsTransport
Embedding of `NatsTransport` (packages/nats/src/nats-transport.ts). -/

/-- Fields of a `NatsTransport` instance the modelled methods read:
`natsConn` is `this.nats !== null`. -/
structure NTState where
  natsConn : Bool
  connected : Bool
  connecting : Bool
deriving DecidableEq

structure NatsSubjects where
  requests : Str
  events : Str
deriving DecidableEq

namespace NatsTransport

inductive NatsConnectResult
  | alreadyConnected
  | connectedNow
deriving DecidableEq

/-- `connect` (lines 32-84): return immediately when already connected,
throw `Connection already in progress` when a connect is in flight,
otherwise set `connecting` and attempt the broker connection
(`attemptSucceeds` says whether `connect(...)` resolves); on failure
`connecting` is reset and the error rethrown. -/
def connect (st : NTState) (attemptSucceeds : Bool) :
    Except String NatsConnectResult × NTState :=
  if st.connected then (Except.ok NatsConnectResult.alreadyConnected, st)
  else if st.connecting then (Except.error "Connection already in progress", st)
  else if attemptSucceeds then
    (Except.ok NatsConnectResult.connectedNow,
     { natsConn := true, connected := true, connecting := false })
  else (Except.error "connect failed", { st with connecting := false })

/-- `send` (lines 101-137): with no broker connection or `connected` false it
throws `Transport not connected` before any publish; an `event:`-typed
message publishes on the events subject for its event type, anything else on
the requests subject for its message type. -/
def send (subjects : NatsSubjects) (st : NTState) (msgType : Str) :
    Except String Unit × List ChEff :=
  if !st.natsConn || !st.connected then
    (Except.error "Transport not connected", [])
  else if "event:".toList.isPrefixOf msgType then
    (Except.ok (), [ChEff.natsPublish (subjects.events ++ ['.'] ++ msgType.drop 6)])
  else (Except.ok (), [ChEff.natsPublish (subjects.requests ++ ['.'] ++ msgType)])

end NatsTransport

/-! ## Claims about connection lifecycle and gated sends -/

/-- C5: the backoff delay scheduled before retry `n` (1-indexed) equals
`initialDelayMs * backoffFactor^(n-1)`, and once `maxRetries` attempts have
been made no further retry is scheduled.  (With `initialDelayMs = 100`,
`backoffFactor = 2`, `maxRetries = 3` this gives delays 100 ms, 200 ms,
400 ms and then nothing; see the witness.) -/
theorem c5_backoff_schedule (opts : ReconnectOptions) (st : CTState) (n : Nat)
    (h0 : st.reconnectAttempts = 0) (h1 : 1 ≤ n) :
    (n ≤ opts.maxRetries →
      ChromeTransport.nthRetryDelay opts st n =
        some (opts.initialDelayMs * opts.backoffFactor ^ (n - 1))) ∧
    (opts.maxRetries < n → ChromeTransport.nthRetryDelay opts st n = none) := by
  have hatt := ChromeTransport.runReconnects_attempts opts st (n - 1) h0
  constructor
  · intro hn
    have hcond : (ChromeTransport.runReconnects opts st (n - 1)).reconnectAttempts <
        opts.maxRetries := by
      rw [hatt]; omega
    simp only [ChromeTransport.nthRetryDelay, ChromeTransport.handleReconnect,
      if_pos hcond]
    rw [hatt, min_eq_left (by omega)]
  · intro hn
    have hcond : ¬ (ChromeTransport.runReconnects opts st (n - 1)).reconnectAttempts <
        opts.maxRetries := by
      rw [hatt]; omega
    simp only [ChromeTransport.nthRetryDelay, ChromeTransport.handleReconnect,
      if_neg hcond]

/-- The configuration of the C5 scenario. -/
def c5Options : ReconnectOptions := ⟨3, 2, 100⟩

/-- A freshly constructed transport: no retries yet. -/
def c5Start : CTState := ⟨false, false, none, 0⟩

/-- Witness for C5: the concrete 100/200/400 schedule, then nothing. -/
theorem c5_witness :
    (c5Start.reconnectAttempts = 0 ∧ (1 : Nat) ≤ 1) ∧
    ChromeTransport.nthRetryDelay c5Options c5Start 1 = some 100 ∧
    ChromeTransport.nthRetryDelay c5Options c5Start 2 = some 200 ∧
    ChromeTransport.nthRetryDelay c5Options c5Start 3 = some 400 ∧
    ChromeTransport.nthRetryDelay c5Options c5Start 4 = none :=
  ⟨⟨rfl, by decide⟩,
   (c5_backoff_schedule c5Options c5Start 1 rfl (by decide)).1 (by decide),
   (c5_backoff_schedule c5Options c5Start 2 rfl (by decide)).1 (by decide),
   (c5_backoff_schedule c5Options c5Start 3 rfl (by decide)).1 (by decide),
   (c5_backoff_schedule c5Options c5Start 4 rfl (by decide)).2 (by decide)⟩

/-- C4 (amended): `connect()` resolves immediately on an already-connected
transport (both transports), and neither transport ever starts a second
attempt while one is stored as in flight — but the two differ on how: the
ChromeTransport returns the stored connect promise unchanged, while the
NATS transport rejects with `Connection already in progress` instead of
returning the in-flight attempt's outcome. -/
theorem c4_connect_idempotency :
    (∀ (opts : ReconnectOptions) (re : Bool) (st : CTState) (fresh : Nat) (ct : Bool),
      st.isConnected ∧ st.port →
        ChromeTransport.connect opts re st fresh ct =
          (ChromeTransport.CTConnectResult.alreadyConnected, st)) ∧
    (∀ (opts : ReconnectOptions) (re : Bool) (st : CTState) (fresh : Nat) (ct : Bool)
        (p : Nat), ¬ (st.isConnected ∧ st.port) → st.connectPromise = some p →
        ChromeTransport.connect opts re st fresh ct =
          (ChromeTransport.CTConnectResult.existingPromise p, st)) ∧
    (∀ (st : NTState) (att : Bool), st.connected = true →
      NatsTransport.connect st att =
        (Except.ok NatsTransport.NatsConnectResult.alreadyConnected, st)) ∧
    (∀ (st : NTState) (att : Bool), st.connected = false → st.connecting = true →
      NatsTransport.connect st att =
        (Except.error "Connection already in progress", st)) := by
  refine ⟨?_, ?_, ?_, ?_⟩
  · intro opts re st fresh ct h
    simp [ChromeTransport.connect, h]
  · intro opts re st fresh ct p h hp
    simp [ChromeTransport.connect, h, hp]
  · intro st att h
    simp [NatsTransport.connect, h]
  · intro st att h1 h2
    simp [NatsTransport.connect, h1, h2]

/-- Witness for C4 on concrete states: connected Chrome transport, Chrome
transport with a stored promise, connected NATS transport. -/
theorem c4_witness :
    ((⟨true, true, none, 0⟩ : CTState).isConnected ∧
      (⟨true, true, none, 0⟩ : CTState).port) ∧
    ChromeTransport.connect c5Options true ⟨true, true, none, 0⟩ 9 false =
      (ChromeTransport.CTConnectResult.alreadyConnected, ⟨true, true, none, 0⟩) ∧
    ChromeTransport.connect c5Options true ⟨false, false, some 5, 1⟩ 9 false =
      (ChromeTransport.CTConnectResult.existingPromise 5, ⟨false, false, some 5, 1⟩) ∧
    NatsTransport.connect ⟨true, true, false⟩ true =
      (Except.ok NatsTransport.NatsConnectResult.alreadyConnected,
        ⟨true, true, false⟩) :=
  ⟨by decide,
   c4_connect_idempotency.1 c5Options true ⟨true, true, none, 0⟩ 9 false
     (by decide),
   (c4_connect_idempotency.2.1 c5Options true ⟨false, false, some 5, 1⟩ 9 false 5
     (by decide) (by decide)),
   c4_connect_idempotency.2.2.1 ⟨true, true, false⟩ true rfl⟩

/-- C4 (counterexample): on the NATS transport, a `connect()` call made while
a connection attempt is in flight (`connecting = true`) rejects immediately
with `Connection already in progress` — it does not return the same pending
outcome as the in-flight attempt (here one that is about to succeed). -/
theorem c4_counterexample :
    NatsTransport.connect ⟨false, false, true⟩ true =
      (Except.error "Connection already in progress", ⟨false, false, true⟩) := rfl

/-- Effects that write to the Chrome messaging channel. -/
def isChromeWrite : Eff → Bool
  | Eff.chromeSendEffect _ => true
  | _ => false

/-- C9 (amended): `ChromeTransport.send` and `NatsTransport.send` fail with a
`Transport not connected` error and perform no channel write when the
port/broker connection is absent or the connected flag is false; but
`ChromeExtensionTransport.send` has no connection state and unconditionally
performs exactly one channel write (and cannot fail), so the claimed
behaviour does not hold for every transport. -/
theorem c9_disconnected_send :
    (∀ (opts : ReconnectOptions) (re : Bool) (st : CTState) (pt : Bool),
      (!st.port || !st.isConnected) = true →
        ChromeTransport.send opts re st pt =
          (Except.error "Transport not connected", [], st)) ∧
    (∀ (subj : NatsSubjects) (st : NTState) (ty : Str),
      (!st.natsConn || !st.connected) = true →
        NatsTransport.send subj st ty =
          (Except.error "Transport not connected", [])) ∧
    (∀ (st : ExtState) (msg : TransportMessage) (ctxTab : Option Nat),
      ((ChromeExtensionTransport.send st msg ctxTab).2.filter isChromeWrite).length
        = 1) := by
  refine ⟨?_, ?_, ?_⟩
  · intro opts re st pt h
    simp [ChromeTransport.send, h]
  · intro subj st ty h
    simp [NatsTransport.send, h]
  · intro st msg ctxTab
    unfold ChromeExtensionTransport.send
    split
    · simp [ChromeExtensionTransport.sendToTab, isChromeWrite, List.filter_cons]
    · split <;>
        simp [ChromeExtensionTransport.sendToTab,
          ChromeExtensionTransport.sendViaRuntime, isChromeWrite, List.filter_cons]

/-- Witness for C9 on concrete disconnected states. -/
theorem c9_witness :
    ((!(⟨false, false, none, 0⟩ : CTState).port ||
       !(⟨false, false, none, 0⟩ : CTState).isConnected) = true ∧
     (!(⟨false, true, true⟩ : NTState).natsConn ||
       !(⟨false, true, true⟩ : NTState).connected) = true) ∧
    ChromeTransport.send c5Options true ⟨false, false, none, 0⟩ false =
      (Except.error "Transport not connected", [], ⟨false, false, none, 0⟩) ∧
    NatsTransport.send ⟨"messaging.requests".toList, "messaging.events".toList⟩
      ⟨false, true, true⟩ "ping".toList =
      (Except.error "Transport not connected", []) :=
  ⟨⟨by decide, by decide⟩,
   c9_disconnected_send.1 c5Options true ⟨false, false, none, 0⟩ false (by decide),
   c9_disconnected_send.2.1
     ⟨"messaging.requests".toList, "messaging.events".toList⟩ ⟨false, true, true⟩
     "ping".toList (by decide)⟩

/-- Transport state used for C9's counterexample. -/
def c9State : ExtState :=
  { responseHandlers := [("r1", ⟨"ping"⟩)], messageHandlers := [],
    nspace := "magicbutton", handleResponses := true,
    componentType := CompType.popup, targetTabId := none }

/-- C9 (counterexample): on a ChromeExtensionTransport that has been closed,
`send` still performs a channel write — it neither fails with `NotConnected`
nor refrains from delivery, so the claim is false for this transport. -/
theorem c9_counterexample :
    (((ChromeExtensionTransport.send (ChromeExtensionTransport.close c9State).1
        ⟨"m1", "ping", 0, none, none⟩ none).2.filter isChromeWrite).length = 1) := by
  decide

/-! ## ChromeExtensionTransport.broadcast -/

/-- A Chrome tab as `broadcast` sees it (`tab.id` may be undefined). -/
structure Tab where
  id : Option Nat
deriving DecidableEq

/-- Destinations of broadcast deliveries. -/
inductive BDest
  | tab (id : Nat)
  | runtime
deriving DecidableEq

/-- Observable outcome of one `broadcast` call: the delivery attempts in
order (destination and whether that delivery succeeded), the failures
surfaced to the caller or an observer, and whether the call itself
resolved. -/
structure BroadcastOut where
  attempts : List (BDest × Bool)
  reported : List Str
  ok : Bool
deriving DecidableEq

namespace ChromeExtensionTransport

/-- `broadcast` (lines 258-298): a background transport queries all tabs and
fires one `chrome.tabs.sendMessage` per tab with a truthy id, each guarded
by a `.catch(() => {})` that swallows the failure; any other component fires
one runtime send, equally guarded.  `fails` says which destinations'
deliveries reject.  No failure is reported anywhere and the call always
resolves. -/
def broadcast (ct : CompType) (tabs : List Tab) (fails : BDest → Bool) :
    BroadcastOut :=
  match ct with
  | CompType.background =>
    { attempts := tabs.filterMap (fun t =>
        match t.id with
        | some i =>
          if i = 0 then none
          else some (BDest.tab i, !fails (BDest.tab i))
        | none => none),
      reported := [], ok := true }
  | _ =>
    { attempts := [(BDest.runtime, !fails BDest.runtime)],
      reported := [], ok := true }

end ChromeExtensionTransport

/-- C8 (amended): broadcast is fan-out and best-effort — the call always
succeeds, every tab with a truthy id receives its own delivery attempt with
its own outcome regardless of failures elsewhere — but individual failures
are swallowed by the per-recipient catch handlers rather than reported:
the list of reported failures is always empty. -/
theorem c8_broadcast_isolation (tabs : List Tab) (fails : BDest → Bool) :
    (ChromeExtensionTransport.broadcast CompType.background tabs fails).ok = true ∧
    (ChromeExtensionTransport.broadcast CompType.background tabs fails).reported = [] ∧
    ∀ i : Nat, some i ∈ tabs.map Tab.id → i ≠ 0 →
      (BDest.tab i, !fails (BDest.tab i)) ∈
        (ChromeExtensionTransport.broadcast CompType.background tabs fails).attempts := by
  refine ⟨rfl, rfl, ?_⟩
  intro i hmem hi
  rw [List.mem_map] at hmem
  obtain ⟨t, ht, hid⟩ := hmem
  simp only [ChromeExtensionTransport.broadcast]
  rw [List.mem_filterMap]
  exact ⟨t, ht, by simp [hid, hi]⟩

/-- The three-recipient scenario of C8. -/
def c8Tabs : List Tab := [⟨some 1⟩, ⟨some 2⟩, ⟨some 3⟩]

/-- Delivery to tab 2 throws; the others succeed. -/
def c8Fails : BDest → Bool := fun d => decide (d = BDest.tab 2)

/-- Witness for C8: with recipient 2 failing, recipients 1 and 3 still get
their delivery attempts and the call succeeds with nothing reported. -/
theorem c8_witness :
    (some 1 ∈ c8Tabs.map Tab.id ∧ (1 : Nat) ≠ 0) ∧
    (BDest.tab 1, !c8Fails (BDest.tab 1)) ∈
      (ChromeExtensionTransport.broadcast CompType.background c8Tabs c8Fails).attempts ∧
    (BDest.tab 3, !c8Fails (BDest.tab 3)) ∈
      (ChromeExtensionTransport.broadcast CompType.background c8Tabs c8Fails).attempts ∧
    (ChromeExtensionTransport.broadcast CompType.background c8Tabs c8Fails).ok = true :=
  ⟨⟨by decide, by decide⟩,
   (c8_broadcast_isolation c8Tabs c8Fails).2.2 1 (by decide) (by decide),
   (c8_broadcast_isolation c8Tabs c8Fails).2.2 3 (by decide) (by decide),
   (c8_broadcast_isolation c8Tabs c8Fails).1⟩

/-- C8 (counterexample): broadcasting to three recipients where recipient 2
throws still delivers to 1 and 3, but zero failures are reported — not the
claimed exactly one. -/
theorem c8_counterexample :
    (ChromeExtensionTransport.broadcast CompType.background c8Tabs c8Fails).attempts =
      [(BDest.tab 1, true), (BDest.tab 2, false), (BDest.tab 3, true)] ∧
    (ChromeExtensionTransport.broadcast CompType.background c8Tabs
      c8Fails).reported.length = 0 := by
  exact ⟨by decide, rfl⟩
